import Mathlib

/-!
Verification development for the detectk metric-monitoring core.

The Python sources are shallowly embedded: pure functions become Lean
functions, stateful orchestration becomes explicit state passing over an
environment of plugin behaviours, machine integers and floats are modelled
as `Int`/`Nat` (metric values and timestamps never undergo arithmetic that
could overflow in the claims under study), and fallible code returns
`Except`.  Python exception objects are modelled by their class together
with their message string (`str(e)` of a DetectKError is its first
argument).  Quoted fragments inside Python error messages are reproduced
without the quote characters.
-/

namespace DetectK

/-! Part: Parameter values (opaque `dict[str, Any]` entries)

Detector parameters are JSON scalars and arrays.  A number is carried
together with its canonical Python `repr`/`json.dumps` serialization
(e.g. the float `3.0` is `PValue.num "3.0"`), so that serialization is a
function of the value; equality of numbers is equality of those literals,
which agrees with Python `==` on all values appearing in the registered
defaults and in the claims. -/

inductive PScalar where
  | num (lit : String)
  | str (s : String)
  | bool (b : Bool)
deriving Repr, DecidableEq

/-- A parameter value: a JSON scalar or an array of scalars (the only value
shapes occurring in this codebase's detector parameters and defaults). -/
inductive PValue where
  | scalar (v : PScalar)
  | arr (elems : List PScalar)
deriving Repr, DecidableEq

def PValue.num (lit : String) : PValue := .scalar (.num lit)

def PValue.str (s : String) : PValue := .scalar (.str s)

def PValue.bool (b : Bool) : PValue := .scalar (.bool b)

/-- A Python dict, in insertion order, with pairwise-distinct keys expected. -/
abbrev Params := List (String × PValue)

/-! Part: Identity Resolver  (config/models.py) -/

/-- Model of `DETECTOR_DEFAULTS` global registry from `config/models.py`. -/
def DETECTOR_DEFAULTS : String → Params
  | "threshold" =>
      [("operator", .str "greater_than"), ("percent", .bool false), ("tolerance", .num "0.001")]
  | "mad" => [("n_sigma", .num "3.0"), ("seasonal_features", .arr [])]
  | "zscore" => [("n_sigma", .num "3.0"), ("seasonal_features", .arr [])]
  | _ => []

/-- Python `key in defaults and defaults[key] == value` over an assoc list. -/
def isDefaultEntry (defaults : Params) (key : String) (value : PValue) : Bool :=
  match defaults.lookup key with
  | some v => v == value
  | none => false

/-- Model of `DetectorConfig._normalize_params`: drop every parameter whose value
equals the registered default for the detector type. -/
def _normalize_params (type : String) (params : Params) : Params :=
  params.filter (fun kv => !isDefaultEntry (DETECTOR_DEFAULTS type) kv.1 kv.2)

/-- JSON string escaping as performed by `json.dumps` (quote, backslash and
ASCII control characters; the strings in this development contain none of
the latter, only the first two cases matter). -/
def jsonEscapeChar (c : Char) : String :=
  if c = '"' then "\\\""
  else if c = '\\' then "\\\\"
  else if c = '\n' then "\\n"
  else if c = '\t' then "\\t"
  else if c = '\r' then "\\r"
  else String.singleton c

def jsonEscape (s : String) : String :=
  String.join (s.data.map jsonEscapeChar)

def serializeScalar : PScalar → String
  | .num lit => lit
  | .str s => "\"" ++ jsonEscape s ++ "\""
  | .bool b => if b then "true" else "false"

/-- Serialization of a single JSON value, matching `json.dumps` with
`ensure_ascii=False` and default separators. -/
def serializePValue : PValue → String
  | .scalar v => serializeScalar v
  | .arr elems => "[" ++ String.intercalate ", " (elems.map serializeScalar) ++ "]"

/-- Keys are compared by code points, as Python `sort_keys=True` does. -/
def keyLe (a b : String × PValue) : Prop := a.1 ≤ b.1

instance : DecidableRel keyLe := fun a b => inferInstanceAs (Decidable (a.1 ≤ b.1))

/-- Sort the entries of a dict by key (the effect of `sort_keys=True`). -/
def sortByKey (params : Params) : Params :=
  List.insertionSort keyLe params

def serializeEntries : Params → String
  | [] => ""
  | [(k, v)] => "\"" ++ jsonEscape k ++ "\": " ++ serializePValue v
  | (k, v) :: rest =>
      "\"" ++ jsonEscape k ++ "\": " ++ serializePValue v ++ ", " ++ serializeEntries rest

/-- Model of `json.dumps(normalized, sort_keys=True, ensure_ascii=False)`. -/
def canonicalJson (params : Params) : String :=
  "\x7b" ++ serializeEntries (sortByKey params) ++ "\x7d"

/-! Part: SHA-256 over byte lists (`hashlib.sha256`)

Words are natural numbers reduced mod `2^32`. -/

def w32 (x : Nat) : Nat := x % 4294967296

def wadd (a b : Nat) : Nat := (a + b) % 4294967296

def wnot (x : Nat) : Nat := Nat.xor x 4294967295

def rotw (n x : Nat) : Nat := w32 ((x >>> n) ||| (x <<< (32 - n)))

def mixA0 (x : Nat) : Nat := Nat.xor (rotw 2 x) (Nat.xor (rotw 13 x) (rotw 22 x))

def mixE1 (x : Nat) : Nat := Nat.xor (rotw 6 x) (Nat.xor (rotw 11 x) (rotw 25 x))

def spread0 (x : Nat) : Nat := Nat.xor (rotw 7 x) (Nat.xor (rotw 18 x) (x >>> 3))

def spread1 (x : Nat) : Nat := Nat.xor (rotw 17 x) (Nat.xor (rotw 19 x) (x >>> 10))

def chFn (x y z : Nat) : Nat := Nat.xor (Nat.land x y) (Nat.land (wnot x) z)

def majFn (x y z : Nat) : Nat :=
  Nat.xor (Nat.land x y) (Nat.xor (Nat.land x z) (Nat.land y z))

def sha256K : List Nat :=
  [1116352408, 1899447441, 3049323471, 3921009573, 961987163,
   1508970993, 2453635748, 2870763221, 3624381080, 310598401,
   607225278, 1426881987, 1925078388, 2162078206, 2614888103,
   3248222580, 3835390401, 4022224774, 264347078, 604807628,
   770255983, 1249150122, 1555081692, 1996064986, 2554220882,
   2821834349, 2952996808, 3210313671, 3336571891, 3584528711,
   113926993, 338241895, 666307205, 773529912, 1294757372,
   1396182291, 1695183700, 1986661051, 2177026350, 2456956037,
   2730485921, 2820302411, 3259730800, 3345764771, 3516065817,
   3600352804, 4094571909, 275423344, 430227734, 506948616,
   659060556, 883997877, 958139571, 1322822218, 1537002063,
   1747873779, 1955562222, 2024104815, 2227730452, 2361852424,
   2428436474, 2756734187, 3204031479, 3329325298]

def sha256H0 : List Nat :=
  [1779033703, 3144134277, 1013904242,
   2773480762, 1359893119, 2600822924,
   528734635, 1541459225]

/-- UTF-8 encoding of one scalar value (Python `str.encode()`). -/
def utf8Char (c : Char) : List Nat :=
  let n := c.toNat
  if n < 0x80 then [n]
  else if n < 0x800 then
    [0xC0 ||| (n >>> 6), 0x80 ||| (n &&& 0x3F)]
  else if n < 0x10000 then
    [0xE0 ||| (n >>> 12), 0x80 ||| ((n >>> 6) &&& 0x3F), 0x80 ||| (n &&& 0x3F)]
  else
    [0xF0 ||| (n >>> 18), 0x80 ||| ((n >>> 12) &&& 0x3F),
     0x80 ||| ((n >>> 6) &&& 0x3F), 0x80 ||| (n &&& 0x3F)]

def utf8Encode (s : String) : List Nat :=
  (s.data.map utf8Char).flatten

/-- Big-endian 8-byte encoding of the bit length, for the padding block. -/
def lenBytes (bits : Nat) : List Nat :=
  (List.range 8).map (fun i => (bits >>> (8 * (7 - i))) % 256)

/-- SHA-256 padding: `0x80`, zeros to 56 mod 64, then the 64-bit length. -/
def sha256Pad (msg : List Nat) : List Nat :=
  let len := msg.length
  let zeros := (64 + 56 - (len + 1) % 64) % 64
  msg ++ [0x80] ++ List.replicate zeros 0 ++ lenBytes (8 * len)

/-- Group bytes into 32-bit big-endian words. -/
def toWords : List Nat → List Nat
  | b0 :: b1 :: b2 :: b3 :: rest =>
      ((b0 <<< 24) ||| (b1 <<< 16) ||| (b2 <<< 8) ||| b3) :: toWords rest
  | _ => []

/-- Split a word list into 16-word blocks. -/
def toBlocks (ws : List Nat) : List (List Nat) :=
  (List.range (ws.length / 16)).map (fun i => ((ws.drop (16 * i)).take 16))

/-- Extend a 16-word block to the 64-entry message schedule. -/
def extendSchedule (block : List Nat) : List Nat :=
  (List.range 48).foldl
    (fun w _ =>
      let t := w.length
      w ++ [wadd (wadd (spread1 (w.getD (t - 2) 0)) (w.getD (t - 7) 0))
                 (wadd (spread0 (w.getD (t - 15) 0)) (w.getD (t - 16) 0))])
    block

/-- One compression round on the 8-word working state. -/
def sha256Round (st : List Nat) (kw : Nat × Nat) : List Nat :=
  let a := st.getD 0 0
  let b := st.getD 1 0
  let c := st.getD 2 0
  let d := st.getD 3 0
  let e := st.getD 4 0
  let f := st.getD 5 0
  let g := st.getD 6 0
  let hh := st.getD 7 0
  let t1 := wadd (wadd (wadd hh (mixE1 e)) (wadd (chFn e f g) kw.1)) kw.2
  let t2 := wadd (mixA0 a) (majFn a b c)
  [wadd t1 t2, a, b, c, wadd d t1, e, f, g]

/-- Compress one 512-bit block into the hash state. -/
def sha256Compress (hs : List Nat) (block : List Nat) : List Nat :=
  let w := extendSchedule block
  let st := (sha256K.zip w).foldl sha256Round hs
  (hs.zip st).map (fun p => wadd p.1 p.2)

def sha256Digest (msg : List Nat) : List Nat :=
  (toBlocks (toWords (sha256Pad msg))).foldl sha256Compress sha256H0

def hexNibble (n : Nat) : Char :=
  if n < 10 then Char.ofNat (48 + n) else Char.ofNat (87 + n)

def wordHex (w : Nat) : String :=
  String.mk ((List.range 8).map (fun i => hexNibble ((w >>> (4 * (7 - i))) % 16)))

/-- Lowercase hex digest, as `hashlib.sha256(...).hexdigest()`. -/
def sha256Hex (msg : List Nat) : String :=
  String.join ((sha256Digest msg).map wordHex)

/-- Model of `DetectorConfig._generate_id`: deterministic 8-hex-char id from the
detector type and the normalized parameters. -/
def _generate_id (type : String) (params : Params) : String :=
  let normalized := _normalize_params type params
  let canonical_json := canonicalJson normalized
  let content := type ++ ":" ++ canonical_json
  (sha256Hex (utf8Encode content)).take 8

/-! Part: Data model

`detectk/models.py` is not among the sources.  Modelled from the spec:
`DataPoint`, `DetectionResult` and `CheckResult` follow spec.md §3 and the
keyword-argument constructor calls in `check.py` (`CheckResult` carries a
single `detection`, exactly as `check.py` builds it).  Timestamps are
seconds as `Int`; float values are modelled as `Option Int` (nullable
scalar; no arithmetic on them occurs in the claims). -/

structure DataPoint where
  timestamp : Int
  value : Option Int
  is_missing : Bool := false
  metadata : List (String × String) := []
deriving Repr, DecidableEq

structure DetectionResult where
  metric_name : String
  timestamp : Int
  value : Option Int
  is_anomaly : Bool
  score : Option Int := none
  lower_bound : Option Int := none
  upper_bound : Option Int := none
  direction : Option String := none
  percent_deviation : Option Int := none
  metadata : List (String × String) := []
deriving Repr, DecidableEq

structure CheckResult where
  metric_name : String
  datapoint : DataPoint
  detection : DetectionResult
  alert_sent : Bool
  alert_reason : Option String := none
  errors : List String
deriving Repr, DecidableEq

/-- Exception taxonomy of `detectk/exceptions.py` (module absent from the
sources; classes and their roles are named throughout `check.py` and
spec.md §7).  `str(e)` of an exception is its message; `other` stands for
any exception outside the DetectK hierarchy (e.g. `AttributeError`). -/
inductive DtkError where
  | configuration (msg : String)
  | collection (msg : String)
  | storage (msg : String)
  | detection (msg : String)
  | alert (msg : String)
  | other (msg : String)
deriving Repr, DecidableEq

def DtkError.message : DtkError → String
  | .configuration m => m
  | .collection m => m
  | .storage m => m
  | .detection m => m
  | .alert m => m
  | .other m => m

def DtkError.isConfigurationError : DtkError → Bool
  | .configuration _ => true
  | _ => false

/-! Part: Configuration model  (config/models.py) -/

structure CollectorConfig where
  type : String
  params : Params := []
deriving Repr, DecidableEq

structure StorageConfig where
  enabled : Bool := true
  type : Option String := none
  params : Params := []
  retention_days : Int := 90
deriving Repr, DecidableEq

/-- Model of `DetectorConfig` as it arrives from YAML, before `ensure_id_exists`. -/
structure RawDetectorConfig where
  id : Option String := none
  type : String
  params : Params := []
deriving Repr, DecidableEq

/-- Model of `DetectorConfig` after validation: `id` is always present. -/
structure DetectorConfig where
  id : String
  type : String
  params : Params := []
deriving Repr, DecidableEq

/-- Model of `DetectorConfig.ensure_id_exists` model validator: auto-generate the id
when it was not supplied manually. -/
def ensure_id_exists (raw : RawDetectorConfig) : DetectorConfig :=
  { id := raw.id.getD (_generate_id raw.type raw.params),
    type := raw.type,
    params := raw.params }

structure AlerterConfig where
  type : String
  params : Params := []
  conditions : Params := []
deriving Repr, DecidableEq

structure BacktestConfig where
  enabled : Bool := false
  data_load_start : Option String := none
  detection_start : Option String := none
  detection_end : Option String := none
  step_interval : Option String := none
deriving Repr, DecidableEq

/-- Model of `MetricConfig` as constructed from the parsed YAML mapping, before the
model-level validators run (nested `DetectorConfig` validation has not run
either). -/
structure RawMetricConfig where
  name : String
  collector : CollectorConfig
  detector : Option RawDetectorConfig := none
  detectors : Option (List RawDetectorConfig) := none
  alerter : AlerterConfig
  storage : StorageConfig := {}
  backtest : BacktestConfig := {}
deriving Repr, DecidableEq

/-- Model of `MetricConfig` after validation.  `detectors` is the populated list
(`[detector]` when the singular form was used); `detector` is kept for
backward compatibility and is `none` when the plural form was used. -/
structure MetricConfig where
  name : String
  collector : CollectorConfig
  detector : Option DetectorConfig
  detectors : List DetectorConfig
  alerter : AlerterConfig
  storage : StorageConfig := {}
  backtest : BacktestConfig := {}
deriving Repr, DecidableEq

/-- The duplicate-id and emptiness checks of
`MetricConfig.validate_detector_config` (the duplicate check is Python
`len(ids) != len(set(ids))`, i.e. comparing against the deduplicated
length). -/
def checkDetectorsList (l : List DetectorConfig) : Except String Unit :=
  if l.isEmpty then .error "detectors list cannot be empty"
  else
    let ids := l.map (fun d => d.id)
    if ids.dedup.length ≠ ids.length then
      .error "Duplicate detector IDs found. Each detector must have a unique ID within a metric."
    else .ok ()

/-- Model of `MetricConfig.validate_detector_config`: exactly one of the singular
and plural detector fields must be present; when the singular form is
used, `detectors` is populated with the one-element list. -/
def validate_detector_config (detector? : Option DetectorConfig)
    (detectors? : Option (List DetectorConfig)) :
    Except String (Option DetectorConfig × List DetectorConfig) :=
  match detector?, detectors? with
  | none, none => .error "Either detector or detectors must be provided"
  | some _, some _ =>
      .error "Cannot specify both detector and detectors. Use one or the other."
  | some d, none =>
      match checkDetectorsList [d] with
      | .error m => .error m
      | .ok _ => .ok (some d, [d])
  | none, some l =>
      match checkDetectorsList l with
      | .error m => .error m
      | .ok _ => .ok (none, l)

/-- Python falsiness of an optional string (`not s`): absent or empty. -/
def pyFalsy : Option String → Bool
  | none => true
  | some s => s == ""

/-- Model of `MetricConfig.model_post_init`: when backtesting is enabled,
`data_load_start`, `detection_start` and `step_interval` must be present.
`detection_end` is NOT checked here in the source (models.py lines
460-469); it is only checked later by
`BacktestRunner._validate_backtest_config`. -/
def model_post_init_backtest (b : BacktestConfig) : Except String Unit :=
  if b.enabled then
    if pyFalsy b.data_load_start then
      .error "backtest.data_load_start is required when backtesting is enabled"
    else if pyFalsy b.detection_start then
      .error "backtest.detection_start is required when backtesting is enabled"
    else if pyFalsy b.step_interval then
      .error "backtest.step_interval is required when backtesting is enabled"
    else .ok ()
  else .ok ()

/-- Pydantic validation of a `MetricConfig`: nested `DetectorConfig`
validators run first (`ensure_id_exists`), then the model-level
`validate_detector_config`, then `model_post_init`.  (The per-field
non-emptiness and character-set validators are independent checks not
involved in any claim and are not modelled.) -/
def validateMetricConfig (raw : RawMetricConfig) : Except String MetricConfig :=
  let detector? := raw.detector.map ensure_id_exists
  let detectors? := raw.detectors.map (fun l => l.map ensure_id_exists)
  match validate_detector_config detector? detectors? with
  | .error m => .error m
  | .ok (d?, ds) =>
      match model_post_init_backtest raw.backtest with
      | .error m => .error m
      | .ok _ =>
          .ok { name := raw.name, collector := raw.collector, detector := d?,
                detectors := ds, alerter := raw.alerter, storage := raw.storage,
                backtest := raw.backtest }

/-! Part: Plugin environment

The orchestrator's external collaborators (config file reading/parsing,
registries, plugin constructors and methods, the third-party datetime
parser).  Each fallible call yields `Except String α`: the message of the
exception it raised, if any.  The stage boundaries in `check.py` catch
`Exception`, so the class of a plugin's exception is irrelevant there (the
one distinction that matters, `ConfigurationError` from configuration
loading, is introduced by the loader itself and modelled in
`ConfigLoader.load_file` below). -/

structure Env where
  /-- File read + env-var substitution + template rendering + YAML parse +
  pydantic field parsing, with (`some t`) or without template context. -/
  readAndParse : String → Option Int → Except String RawMetricConfig
  /-- Model of `CollectorRegistry.get`. -/
  collectorGet : String → Except String Unit
  /-- Model of `collector_class(params)`. -/
  collectorInit : Params → Except String Unit
  /-- Model of `collector.collect(at_time=...)`. -/
  collectorCollect : Params → Int → Except String DataPoint
  /-- Python `hasattr(collector, "close")`. -/
  collectorHasClose : Bool
  /-- Model of `collector.close()`. -/
  collectorClose : Except String Unit
  /-- Model of `StorageRegistry.get`. -/
  storageGet : String → Except String Unit
  /-- Model of `storage_class(params)`. -/
  storageInit : Params → Except String Unit
  /-- Model of `storage.save(metric_name, datapoint)`. -/
  storageSave : String → DataPoint → Except String Unit
  /-- Model of `DetectorRegistry.get`. -/
  detectorGet : String → Except String Unit
  /-- Model of `detector_class(storage=..., **params)` followed by
  `detector.detect(metric_name, value, timestamp)`; the `Bool` records
  whether a storage instance was passed. -/
  detectorRun : DetectorConfig → Bool → String → Option Int → Int →
      Except String DetectionResult
  /-- Model of `AlertConditions(**conditions)`. -/
  alertConditionsParse : Params → Except String Unit
  /-- Model of `AlerterRegistry.get`. -/
  alerterGet : String → Except String Unit
  /-- Model of `alerter_class(params)` followed by `alerter.send(detection)`. -/
  alerterSend : Params → DetectionResult → Except String Bool
  /-- Model of `dateutil.parser.parse`. -/
  parseDatetime : String → Except String Int

/-! Part: ConfigLoader  (config/loader.py) -/

namespace ConfigLoader

/-- Model of `ConfigLoader.load_file`: every failure (missing file, read error,
substitution/render/YAML error, pydantic validation error) is wrapped into
a `ConfigurationError`; a valid document yields the validated config. -/
def load_file (env : Env) (path : String) (ctx : Option Int) :
    Except DtkError MetricConfig :=
  match env.readAndParse path ctx with
  | .error m => .error (.configuration m)
  | .ok raw =>
      match validateMetricConfig raw with
      | .ok cfg => .ok cfg
      | .error m => .error (.configuration ("Configuration validation failed: " ++ m))

end ConfigLoader

/-! Part: Pipeline orchestrator  (check.py) -/

namespace MetricCheck

/-- Prefix an exception message the way `f"Failed to collect data: {e}"`
does. -/
def collectionFailure (m : String) : DtkError :=
  .collection ("Failed to collect data: " ++ m)

instance {ε α : Type} [DecidableEq ε] [DecidableEq α] : DecidableEq (Except ε α) := fun a b =>
  match a, b with
  | .ok x, .ok y =>
      if h : x = y then .isTrue (by rw [h]) else .isFalse (by simp [h])
  | .error x, .error y =>
      if h : x = y then .isTrue (by rw [h]) else .isFalse (by simp [h])
  | .ok _, .error _ => .isFalse (by simp)
  | .error _, .ok _ => .isFalse (by simp)

/-- Outcome of `_collect_data` together with whether the constructed
collector's `close()` was invoked during the stage. -/
structure CollectOutcome where
  result : Except DtkError DataPoint
  closeCalled : Bool
deriving Repr, DecidableEq

/-- Model of `MetricCheck._collect_data`: registry lookup, construction, `collect`,
then — only after a successful `collect`, and only when the collector has a
`close` attribute — `close()`.  Any exception in the `try` block is wrapped
into a `CollectionError`; there is no `finally`, so `close()` is not
reached when `collect` (or an earlier step) raises. -/
def _collect_data (env : Env) (config : MetricConfig) (execution_time : Int) :
    CollectOutcome :=
  match env.collectorGet config.collector.type with
  | .error m => ⟨.error (collectionFailure m), false⟩
  | .ok _ =>
  match env.collectorInit config.collector.params with
  | .error m => ⟨.error (collectionFailure m), false⟩
  | .ok _ =>
  match env.collectorCollect config.collector.params execution_time with
  | .error m => ⟨.error (collectionFailure m), false⟩
  | .ok datapoint =>
      if env.collectorHasClose then
        match env.collectorClose with
        | .error m => ⟨.error (collectionFailure m), true⟩
        | .ok _ => ⟨.ok datapoint, true⟩
      else ⟨.ok datapoint, false⟩

/-- Storage-type fallback: explicit `storage.type`, else the collector's
type. -/
def storageType (config : MetricConfig) : String :=
  match config.storage.type with
  | none => config.collector.type
  | some t => t

/-- Model of `MetricCheck._save_to_storage`: never raises; a failure anywhere in the
stage is appended to `errors`. -/
def _save_to_storage (env : Env) (config : MetricConfig) (metric_name : String)
    (datapoint : DataPoint) (errors : List String) : List String :=
  match env.storageGet (storageType config) with
  | .error m => errors ++ ["Failed to save to storage: " ++ m]
  | .ok _ =>
  match env.storageInit config.storage.params with
  | .error m => errors ++ ["Failed to save to storage: " ++ m]
  | .ok _ =>
  match env.storageSave metric_name datapoint with
  | .error m => errors ++ ["Failed to save to storage: " ++ m]
  | .ok _ => errors

/-- The substituted non-anomalous result `_run_detection` returns when the
stage fails, carrying the error in its metadata. -/
def detectionErrorResult (metric_name : String) (datapoint : DataPoint)
    (m : String) : DetectionResult :=
  { metric_name := metric_name,
    timestamp := datapoint.timestamp,
    value := datapoint.value,
    is_anomaly := false,
    score := some 0,
    metadata := [("error", m)] }

/-- Model of `MetricCheck._run_detection`: resolves `config.detector.type` (the
SINGULAR field — when the plural `detectors` form was configured this field
is `None` and the attribute access raises `AttributeError`), optionally
constructs a storage instance, constructs the detector and runs `detect`.
Never raises; on failure appends to `errors` and returns a non-anomalous
result with the error in its metadata. -/
def _run_detection (env : Env) (config : MetricConfig) (metric_name : String)
    (datapoint : DataPoint) (errors : List String) :
    DetectionResult × List String :=
  let fail := fun (m : String) =>
    (detectionErrorResult metric_name datapoint m,
     errors ++ ["Failed to run detection: " ++ m])
  match config.detector with
  | none => fail "NoneType object has no attribute type"
  | some det =>
  match env.detectorGet det.type with
  | .error m => fail m
  | .ok _ =>
  if config.storage.enabled then
    match env.storageGet (storageType config) with
    | .error m => fail m
    | .ok _ =>
    match env.storageInit config.storage.params with
    | .error m => fail m
    | .ok _ =>
    match env.detectorRun det true metric_name datapoint.value datapoint.timestamp with
    | .error m => fail m
    | .ok detection => (detection, errors)
  else
    match env.detectorRun det false metric_name datapoint.value datapoint.timestamp with
    | .error m => fail m
    | .ok detection => (detection, errors)

/-- Render of `f"Anomaly detected: score={detection.score:.2f}"` (the
two-decimal float formatting is not modelled). -/
def alertReason (score : Option Int) : String :=
  "Anomaly detected: score=" ++ (match score with | some n => toString n | none => "None")

/-- Model of `MetricCheck._send_alert`: never raises; returns
`(alert_sent, alert_reason)` and the updated errors. -/
def _send_alert (env : Env) (config : MetricConfig) (detection : DetectionResult)
    (errors : List String) : (Bool × Option String) × List String :=
  match env.alertConditionsParse config.alerter.conditions with
  | .error m => ((false, none), errors ++ ["Failed to send alert: " ++ m])
  | .ok _ =>
  if !detection.is_anomaly then ((false, none), errors)
  else
    match env.alerterGet config.alerter.type with
    | .error m => ((false, none), errors ++ ["Failed to send alert: " ++ m])
    | .ok _ =>
    match env.alerterSend config.alerter.params detection with
    | .error m => ((false, none), errors ++ ["Failed to send alert: " ++ m])
    | .ok true => ((true, some (alertReason detection.score)), errors)
    | .ok false => ((false, none), errors ++ ["Alert sending failed (returned False)"])

/-- The degraded best-effort `CheckResult` built by `execute`'s generic
exception handler: config path as fallback name, zero-valued `DataPoint`,
non-anomalous zero-score detection, the failure recorded in `errors`. -/
def degradedResult (config_path : String) (execution_time : Int)
    (errors : List String) (m : String) : CheckResult :=
  { metric_name := config_path,
    datapoint := { timestamp := execution_time, value := some 0 },
    detection := { metric_name := config_path, timestamp := execution_time,
                   value := some 0, is_anomaly := false, score := some 0 },
    alert_sent := false,
    alert_reason := none,
    errors := errors ++ ["Unexpected error during metric check: " ++ m] }

/-- Model of `MetricCheck.execute`: the full pipeline for one invocation.
`ConfigurationError` (only ever raised by configuration loading) propagates
as `Except.error`; every other failure is reflected inside the returned
`CheckResult`.  The only raiser inside the guarded block besides loading is
`_collect_data` (`CollectionError`), which the generic handler converts
into the degraded result. -/
def execute (env : Env) (config_path : String) (execution_time : Int) :
    Except DtkError CheckResult :=
  match ConfigLoader.load_file env config_path (some execution_time) with
  | .error e => .error e
  | .ok config =>
    let errors : List String := []
    match (_collect_data env config execution_time).result with
    | .error e => .ok (degradedResult config_path execution_time errors e.message)
    | .ok datapoint =>
      let errors :=
        if config.storage.enabled then
          _save_to_storage env config config.name datapoint errors
        else errors
      let det := _run_detection env config config.name datapoint errors
      let sa :=
        if det.1.is_anomaly then _send_alert env config det.1 det.2
        else ((false, none), det.2)
      .ok { metric_name := config.name,
            datapoint := datapoint,
            detection := det.1,
            alert_sent := sa.1.1,
            alert_reason := sa.1.2,
            errors := sa.2 }

end MetricCheck

/-! Part: Backtest runner  (backtest.py) -/

/-- Tokenizer for Python `str.split()` with no argument: maximal runs of
non-whitespace characters (the accumulator holds the current token
reversed). -/
def wsTokens : List Char → List Char → List String
  | [], cur => if cur = [] then [] else [String.mk cur.reverse]
  | c :: rest, cur =>
      if c.isWhitespace then
        if cur = [] then wsTokens rest []
        else String.mk cur.reverse :: wsTokens rest []
      else wsTokens rest (c :: cur)

/-- Python `str.split()` (split on whitespace runs, dropping empties). -/
def pySplitWs (s : String) : List String := wsTokens s.data []

/-- ASCII lowercasing of one character (the unit and interval tokens in
this codebase are ASCII). -/
def lowerChar (c : Char) : Char :=
  if 65 ≤ c.toNat ∧ c.toNat ≤ 90 then Char.ofNat (c.toNat + 32) else c

/-- Python `str.lower()` on ASCII text. -/
def pyToLower (s : String) : String := String.mk (s.data.map lowerChar)

/-- Python `str.rstrip("s")`: drop every trailing `s`. -/
def rstripS (s : String) : String :=
  String.mk (s.data.reverse.dropWhile (fun c => c = 's') |>.reverse)

def digitVal (c : Char) : Option Nat :=
  if 48 ≤ c.toNat ∧ c.toNat ≤ 57 then some (c.toNat - 48) else none

def parseDigits : List Char → Nat → Option Nat
  | [], acc => some acc
  | c :: rest, acc =>
      match digitVal c with
      | some d => parseDigits rest (acc * 10 + d)
      | none => none

/-- Python `int(str)` on a whitespace-free token: optional sign then at
least one decimal digit (underscore grouping is not modelled). -/
def pyToInt (s : String) : Option Int :=
  match s.data with
  | [] => none
  | '-' :: rest =>
      if rest = [] then none else (parseDigits rest 0).map (fun n => -(n : Int))
  | '+' :: rest =>
      if rest = [] then none else (parseDigits rest 0).map (fun n => (n : Int))
  | ds => (parseDigits ds 0).map (fun n => (n : Int))

namespace BacktestRunner

/-- Model of `BacktestRunner._parse_datetime`: empty string rejected, parser
failures wrapped into `ConfigurationError`. -/
def _parse_datetime (env : Env) (dt : Option String) : Except DtkError Int :=
  match dt with
  | none => .error (.configuration "Datetime string cannot be empty")
  | some s =>
      if s == "" then .error (.configuration "Datetime string cannot be empty")
      else
        match env.parseDatetime s with
        | .ok t => .ok t
        | .error m => .error (.configuration ("Invalid datetime format: " ++ s ++ ". Error: " ++ m))

/-- Unit table of `_parse_interval` after `rstrip("s")`, in seconds. -/
def intervalUnitSeconds : String → Option Int
  | "second" => some 1
  | "minute" => some 60
  | "hour" => some 3600
  | "day" => some 86400
  | "week" => some 604800
  | _ => none

/-- Model of `BacktestRunner._parse_interval`: `"<integer> <unit>"`, case-insensitive,
optional trailing `s` on the unit; failures are `ConfigurationError`s.
(Python `str.strip()` around the whole expression is subsumed by the
whitespace split; `int()` is modelled by `String.toInt?`.) -/
def _parse_interval (interval? : Option String) : Except DtkError Int :=
  match interval? with
  | none => .error (.configuration "Interval string cannot be empty")
  | some raw =>
      if raw == "" then .error (.configuration "Interval string cannot be empty")
      else
        let interval_str := pyToLower raw
        match pySplitWs interval_str with
        | [p0, p1] =>
            (match pyToInt p0 with
             | none => .error (.configuration
                 ("Invalid interval value: " ++ p0 ++ ". Must be an integer."))
             | some value =>
                 match intervalUnitSeconds (rstripS p1) with
                 | some unit => .ok (value * unit)
                 | none => .error (.configuration
                     ("Invalid interval unit: " ++ p1 ++ ". Supported units: second, minute, hour, day, week (with optional s)")))
        | _ => .error (.configuration
            ("Invalid interval format: " ++ interval_str ++ ". Expected format: <number> <unit>"))

/-- Model of `BacktestRunner._validate_backtest_config`: all four fields must be
present (including `detection_end`), then the parsed timestamps must be
strictly increasing. -/
def _validate_backtest_config (env : Env) (config : MetricConfig) :
    Except DtkError Unit :=
  let b := config.backtest
  if pyFalsy b.data_load_start then
    .error (.configuration "backtest.data_load_start is required when backtesting is enabled")
  else if pyFalsy b.detection_start then
    .error (.configuration "backtest.detection_start is required when backtesting is enabled")
  else if pyFalsy b.detection_end then
    .error (.configuration "backtest.detection_end is required when backtesting is enabled")
  else if pyFalsy b.step_interval then
    .error (.configuration "backtest.step_interval is required when backtesting is enabled")
  else
    match _parse_datetime env b.data_load_start with
    | .error e => .error e
    | .ok data_load_start =>
    match _parse_datetime env b.detection_start with
    | .error e => .error e
    | .ok detection_start =>
    match _parse_datetime env b.detection_end with
    | .error e => .error e
    | .ok detection_end =>
    if data_load_start ≥ detection_start then
      .error (.configuration "data_load_start must be before detection_start")
    else if detection_start ≥ detection_end then
      .error (.configuration "detection_start must be before detection_end")
    else .ok ()

/-- The `while current_time <= detection_end` loop body, fuelled.  The fuel
passed by `_run_backtest_loop` always suffices (proved below), so this is
exactly the Python loop; an exception from `execute` (only a
`ConfigurationError` is possible) aborts the whole loop as in Python. -/
def loopAux (env : Env) (config_path : String) (detection_end step : Int) :
    Nat → Int → Except DtkError (List CheckResult)
  | 0, _ => .ok []
  | fuel + 1, current_time =>
      if current_time ≤ detection_end then
        match MetricCheck.execute env config_path current_time with
        | .error e => .error e
        | .ok r =>
            match loopAux env config_path detection_end step fuel (current_time + step) with
            | .error e => .error e
            | .ok rs => .ok (r :: rs)
      else .ok []

/-- Model of `BacktestRunner._run_backtest_loop`: invoke the orchestrator at
`detection_start`, `detection_start + step`, …, while the current time has
not passed `detection_end` (inclusive), collecting results in step order. -/
def _run_backtest_loop (env : Env) (config_path : String)
    (detection_start detection_end step : Int) :
    Except DtkError (List CheckResult) :=
  loopAux env config_path detection_end step
    (((detection_end - detection_start) / step).toNat + 1) detection_start

/-- Aggregate report of a backtest run (wall-clock fields and the pandas
summary table are not modelled). -/
structure BacktestResult where
  metric_name : String
  total_checks : Nat
  anomalies_detected : Nat
  alerts_sent : Nat
  results : List CheckResult
deriving Repr, DecidableEq

/-- Model of `BacktestRunner.run`: load (plain, no template context), require
`backtest.enabled`, validate, parse the four fields, run the loop, and
aggregate counts (`anomalies_detected` counts results whose detection is
flagged anomalous, `alerts_sent` counts results with `alert_sent`). -/
def run (env : Env) (config_path : String) : Except DtkError BacktestResult :=
  match ConfigLoader.load_file env config_path none with
  | .error e => .error e
  | .ok config =>
    if !config.backtest.enabled then
      .error (.configuration "Backtesting not enabled in configuration. Set backtest.enabled: true")
    else
      match _validate_backtest_config env config with
      | .error e => .error e
      | .ok _ =>
      match _parse_datetime env config.backtest.data_load_start with
      | .error e => .error e
      | .ok _ =>
      match _parse_datetime env config.backtest.detection_start with
      | .error e => .error e
      | .ok detection_start =>
      match _parse_datetime env config.backtest.detection_end with
      | .error e => .error e
      | .ok detection_end =>
      match _parse_interval config.backtest.step_interval with
      | .error e => .error e
      | .ok step_interval =>
      match _run_backtest_loop env config_path detection_start detection_end step_interval with
      | .error e => .error e
      | .ok results =>
          .ok { metric_name := config.name,
                total_checks := results.length,
                anomalies_detected := results.countP (fun r => r.detection.is_anomaly),
                alerts_sent := results.countP (fun r => r.alert_sent),
                results := results }

end BacktestRunner

/-! Part: SQL storage history window  (detectk_sql/storage.py) -/

namespace SQLStorage

/-- A `query_datapoints` window argument: row count or duration string. -/
inductive Window where
  | count (n : Int)
  | dur (s : String)
deriving Repr, DecidableEq

/-- What `SQLStorage.query_datapoints` resolves the window to: the
most-recent-N query (descending, LIMIT n), the inclusive time-range query
(ascending), or a raised `StorageError` (the `ValueError`s thrown while
parsing are caught and wrapped into
`StorageError(f"Invalid window format: {e}")`). -/
inductive QueryOutcome where
  | recent (limit : Int) (end_time : Int)
  | range (start_time end_time : Int)
  | storageErr (msg : String)
deriving Repr, DecidableEq

/-- The window resolution of `SQLStorage.query_datapoints` (storage.py
lines 276-331).  Note the duration branch supports exactly the units
day(s), hour(s) and minute(s) — second(s) and week(s) are NOT in its unit
table. -/
def queryWindow (window : Window) (end_time : Int) : QueryOutcome :=
  match window with
  | .count n => .recent n end_time
  | .dur s =>
      match pySplitWs s with
      | [p0, p1] =>
          (match pyToInt p0 with
           | none => .storageErr
               ("Invalid window format: invalid literal for int with base 10: " ++ p0)
           | some amount =>
               let unit := pyToLower p1
               if unit = "day" ∨ unit = "days" then
                 .range (end_time - amount * 86400) end_time
               else if unit = "hour" ∨ unit = "hours" then
                 .range (end_time - amount * 3600) end_time
               else if unit = "minute" ∨ unit = "minutes" then
                 .range (end_time - amount * 60) end_time
               else .storageErr ("Invalid window format: Unsupported time unit: " ++ unit))
      | _ => .storageErr
          ("Invalid window format: Invalid window format: " ++ s ++ ". Expected <number> <unit>")

end SQLStorage

end DetectK

namespace DetectK

/-! Part: Key ordering used by canonical JSON -/

/-- Strict key order on dict entries. -/
def keyLt (a b : String × PValue) : Prop := a.1 < b.1

instance : IsTrans (String × PValue) keyLe :=
  ⟨fun _ _ _ h1 h2 => le_trans h1 h2⟩

instance : IsTotal (String × PValue) keyLe :=
  ⟨fun a b => le_total a.1 b.1⟩

instance : IsAntisymm (String × PValue) keyLt :=
  ⟨fun _ _ h1 h2 => ((lt_asymm h1) h2).elim⟩

/-! Part: Concrete fixtures used by witnesses and counterexamples -/

namespace Fixtures

/-- The data point the fixture collector returns at time `t`. -/
def dpAt (t : Int) : DataPoint := { timestamp := t, value := some 5 }

/-- The genuine, non-anomalous result the fixture detector produces. -/
def detOk (name : String) (v : Option Int) (t : Int) : DetectionResult :=
  { metric_name := name, timestamp := t, value := v, is_anomaly := false }

/-- An environment in which configuration parsing yields `raw` and every
plugin call succeeds. -/
def envOkBase (raw : RawMetricConfig) : Env :=
  { readAndParse := fun _ _ => .ok raw
    collectorGet := fun _ => .ok ()
    collectorInit := fun _ => .ok ()
    collectorCollect := fun _ t => .ok (dpAt t)
    collectorHasClose := true
    collectorClose := .ok ()
    storageGet := fun _ => .ok ()
    storageInit := fun _ => .ok ()
    storageSave := fun _ _ => .ok ()
    detectorGet := fun _ => .ok ()
    detectorRun := fun _ _ name v t => .ok (detOk name v t)
    alertConditionsParse := fun _ => .ok ()
    alerterGet := fun _ => .ok ()
    alerterSend := fun _ _ => .ok true
    parseDatetime := fun s =>
      if s = "2024-01-01" then .ok (-86400)
      else if s = "2024-01-02" then .ok 0
      else if s = "2024-01-02 01:00:00" then .ok 3600
      else .error "Unknown string format" }

/-- A detector spec with a manual id (so no hash computation is needed when
fixtures are evaluated). -/
def rawThr : RawDetectorConfig := { id := some "thr1", type := "threshold" }

def rawMad : RawDetectorConfig := { id := some "mad1", type := "mad" }

def dThr : DetectorConfig := { id := "thr1", type := "threshold" }

def dMad : DetectorConfig := { id := "mad1", type := "mad" }

/-- A minimal valid config using the singular detector form. -/
def rawSingle : RawMetricConfig :=
  { name := "m", collector := { type := "sql" },
    detector := some rawThr,
    alerter := { type := "mattermost" } }

/-- A valid config using the plural (two-element) detectors form; storage
disabled. -/
def rawTwoDetectors : RawMetricConfig :=
  { name := "m", collector := { type := "sql" },
    detectors := some [rawThr, rawMad],
    alerter := { type := "mattermost" },
    storage := { enabled := false } }

/-- Backtest enabled but `detection_end` absent (the other three fields
present). -/
def rawBacktestNoEnd : RawMetricConfig :=
  { rawSingle with backtest :=
      { enabled := true, data_load_start := some "2024-01-01",
        detection_start := some "2024-01-02", step_interval := some "1 hour" } }

/-- A fully valid enabled backtest config (two loop steps an hour apart). -/
def rawBacktestOk : RawMetricConfig :=
  { rawSingle with
    storage := { enabled := false },
    backtest :=
      { enabled := true, data_load_start := some "2024-01-01",
        detection_start := some "2024-01-02",
        detection_end := some "2024-01-02 01:00:00",
        step_interval := some "1 hour" } }

def envSingle : Env := envOkBase rawSingle

def envTwoDetectors : Env := envOkBase rawTwoDetectors

def envBacktest : Env := envOkBase rawBacktestOk

def envBacktestNoEnd : Env := envOkBase rawBacktestNoEnd

def envLoadFails : Env :=
  { envOkBase rawSingle with readAndParse := fun _ _ => .error "Configuration file not found: cfg.yaml" }

def envCollectFails : Env :=
  { envOkBase rawSingle with collectorCollect := fun _ _ => .error "connection refused" }

def envStorageSaveFails : Env :=
  { envOkBase rawSingle with storageSave := fun _ _ => .error "disk full" }

/-- The validated form of `rawSingle`. -/
def cfgSingle : MetricConfig :=
  { name := "m", collector := { type := "sql" }, detector := some dThr,
    detectors := [dThr], alerter := { type := "mattermost" } }

/-- The `CheckResult` `execute` produces at time `t` in an all-success
fixture environment with the single-detector config. -/
def execResultOk (t : Int) : CheckResult :=
  { metric_name := "m", datapoint := dpAt t, detection := detOk "m" (some 5) t,
    alert_sent := false, alert_reason := none, errors := [] }

/-- The aggregate the two-step backtest fixture produces. -/
def resBacktest : BacktestRunner.BacktestResult :=
  { metric_name := "m", total_checks := 2, anomalies_detected := 0,
    alerts_sent := 0, results := [execResultOk 0, execResultOk 3600] }

end Fixtures

end DetectK
namespace DetectK

/-! Part: Sorting facts for canonical JSON -/

/-- Sorting by key of a duplicate-free-key dict is strictly sorted. -/
theorem sortByKey_strict (l : Params) (h : (l.map Prod.fst).Nodup) :
    (sortByKey l).Pairwise keyLt := by
  have hperm := List.perm_insertionSort keyLe l
  have hnd : ((sortByKey l).map Prod.fst).Nodup :=
    ((hperm.map Prod.fst).nodup_iff).mpr h
  have hne : (sortByKey l).Pairwise (fun a b => a.1 ≠ b.1) :=
    List.pairwise_map.mp hnd
  have hle : (sortByKey l).Pairwise keyLe := List.sorted_insertionSort keyLe l
  exact (hle.and hne).imp (fun hx => lt_of_le_of_ne hx.1 hx.2)

/-- Two permuted dicts with duplicate-free keys sort identically. -/
theorem sortByKey_perm_eq {l₁ l₂ : Params} (hp : l₁.Perm l₂)
    (h : (l₁.map Prod.fst).Nodup) : sortByKey l₁ = sortByKey l₂ := by
  have h₂ : (l₂.map Prod.fst).Nodup := ((hp.map Prod.fst).nodup_iff).mp h
  exact List.eq_of_perm_of_sorted
    ((List.perm_insertionSort keyLe l₁).trans
      (hp.trans (List.perm_insertionSort keyLe l₂).symm))
    (sortByKey_strict l₁ h) (sortByKey_strict l₂ h₂)

/-- Normalization is a filter, so it maps permutations to permutations. -/
theorem normalize_perm (T : String) {P1 P2 : Params} (hp : P1.Perm P2) :
    (_normalize_params T P1).Perm (_normalize_params T P2) :=
  hp.filter _

/-- Normalization keeps the key list duplicate-free. -/
theorem normalize_keys_nodup (T : String) {P : Params}
    (h : (P.map Prod.fst).Nodup) :
    ((_normalize_params T P).map Prod.fst).Nodup :=
  h.sublist ((List.filter_sublist _).map Prod.fst)

/-- Resolved ids are invariant under parameter reordering. -/
theorem generate_id_perm {T : String} {P1 P2 : Params} (hp : P1.Perm P2)
    (h : (P1.map Prod.fst).Nodup) : _generate_id T P1 = _generate_id T P2 := by
  have hs := sortByKey_perm_eq (normalize_perm T hp) (normalize_keys_nodup T h)
  simp only [_generate_id, canonicalJson, hs]

set_option maxRecDepth 1000000 in
/-- C2: the detector identity resolver is a pure deterministic,
parameter-order-independent function: parameters equal to the registered
default for the type are removed, the remainder is serialized as canonical
JSON with lexicographically sorted keys, `type + ":" + JSON` is hashed with
SHA-256 and the first 8 hex characters are returned; with registered
default `n_sigma = 3.0` for type `mad`, resolving `{}` and
`{"n_sigma": 3.0}` agree while `{"n_sigma": 5.0}` differs from both; a type
with no registered defaults retains all parameters. -/
theorem C2_identity_resolver :
    (∀ (T : String) (P1 P2 : Params), P1.Perm P2 → (P1.map Prod.fst).Nodup →
        _generate_id T P1 = _generate_id T P2)
    ∧ _generate_id "mad" [] = _generate_id "mad" [("n_sigma", PValue.num "3.0")]
    ∧ _generate_id "mad" [("n_sigma", PValue.num "5.0")] ≠ _generate_id "mad" []
    ∧ _generate_id "mad" [("n_sigma", PValue.num "5.0")]
        ≠ _generate_id "mad" [("n_sigma", PValue.num "3.0")]
    ∧ (∀ (T : String) (P : Params), DETECTOR_DEFAULTS T = [] →
        _normalize_params T P = P)
    ∧ (∀ (T : String) (P : Params),
        _generate_id T P =
          (sha256Hex (utf8Encode
            (T ++ ":" ++ canonicalJson (_normalize_params T P)))).take 8) := by
  refine ⟨fun T P1 P2 hp h => generate_id_perm hp h, ?_, ?_, ?_, ?_, fun T P => rfl⟩
  · have hn : _normalize_params "mad" [("n_sigma", PValue.num "3.0")]
        = _normalize_params "mad" [] := by decide
    unfold _generate_id
    rw [hn]
  · decide
  · decide
  · intro T P h
    unfold _normalize_params
    rw [h]
    simp [isDefaultEntry]

/-- Witness for C2: the id of a concrete two-entry parameter map is
invariant under swapping the entries. -/
theorem C2_identity_resolver_witness :
    _generate_id "mad" [("window_size", PValue.str "30 days"), ("n_sigma", PValue.num "5.0")]
      = _generate_id "mad" [("n_sigma", PValue.num "5.0"), ("window_size", PValue.str "30 days")] :=
  C2_identity_resolver.1 "mad" _ _ (by decide) (by decide)

end DetectK
namespace DetectK

/-! Part: MetricUnit detector-field validation (C9) -/

/-- C9: MetricUnit validation accepts a configuration only if exactly one
of the singular `detector` field and the plural `detectors` field is
present; both set, neither set, an empty `detectors` list, and duplicate
resolved ids are each rejected, while the two well-formed shapes are
accepted (the singular one exposed through the populated list). -/
theorem C9_metricunit_detector_validation :
    (∀ (d : DetectorConfig) (l : List DetectorConfig),
        validate_detector_config (some d) (some l)
          = .error "Cannot specify both detector and detectors. Use one or the other.")
    ∧ validate_detector_config none none
        = .error "Either detector or detectors must be provided"
    ∧ validate_detector_config none (some [])
        = .error "detectors list cannot be empty"
    ∧ (∀ l : List DetectorConfig,
        (l.map (fun d => d.id)).dedup.length ≠ (l.map (fun d => d.id)).length →
        (validate_detector_config none (some l)).isOk = false)
    ∧ (∀ d : DetectorConfig, validate_detector_config (some d) none = .ok (some d, [d]))
    ∧ (∀ l : List DetectorConfig, l ≠ [] → (l.map (fun d => d.id)).Nodup →
        validate_detector_config none (some l) = .ok (none, l)) := by
  refine ⟨fun d l => rfl, rfl, rfl, ?_, ?_, ?_⟩
  · intro l h
    cases l with
    | nil => simp at h
    | cons x xs =>
        simp only [List.map_cons, List.length_cons, List.length_map] at h
        simp [validate_detector_config, checkDetectorsList, h]
        rfl
  · intro d
    simp [validate_detector_config, checkDetectorsList]
  · intro l hne hnd
    have hd : (l.map (fun d => d.id)).dedup = l.map (fun d => d.id) :=
      List.dedup_eq_self.mpr hnd
    cases l with
    | nil => exact absurd rfl hne
    | cons x xs =>
        simp only [List.map_cons] at hd
        simp [validate_detector_config, checkDetectorsList, hd]

/-- Witness for C9 at concrete detector lists. -/
theorem C9_metricunit_detector_validation_witness :
    (validate_detector_config (some Fixtures.dThr) (some [Fixtures.dMad])).isOk = false
    ∧ (validate_detector_config none (some [Fixtures.dThr, Fixtures.dThr])).isOk = false
    ∧ validate_detector_config none (some [Fixtures.dThr, Fixtures.dMad])
        = .ok (none, [Fixtures.dThr, Fixtures.dMad]) := by
  refine ⟨?_, ?_, ?_⟩
  · rw [C9_metricunit_detector_validation.1 Fixtures.dThr [Fixtures.dMad]]; rfl
  · exact C9_metricunit_detector_validation.2.2.2.1 [Fixtures.dThr, Fixtures.dThr] (by decide)
  · exact C9_metricunit_detector_validation.2.2.2.2.2 [Fixtures.dThr, Fixtures.dMad]
      (by decide) (by decide)

/-! Part: SQL storage duration windows (C6) -/

/-- C6 counterexample: the claim lists second(s) and week(s) among the
supported duration units, but `SQLStorage.query_datapoints` rejects both
with a StorageError (and a ConfigurationError is never involved). -/
theorem C6_counterexample :
    SQLStorage.queryWindow (.dur "1 week") 1000000
        = .storageErr "Invalid window format: Unsupported time unit: week"
    ∧ SQLStorage.queryWindow (.dur "2 seconds") 1000000
        = .storageErr "Invalid window format: Unsupported time unit: seconds"
    ∧ SQLStorage.queryWindow (.dur "1 week") 1000000
        ≠ .range (1000000 - 604800) 1000000 := by
  refine ⟨rfl, rfl, by decide⟩

/-- C6 amended: duration windows support exactly minute(s), hour(s) and
day(s) (case-insensitive), resolving to the inclusive range
`[end_time - N * unit, end_time]`; a wrong token count, a non-integer
amount, or any other unit (including second(s), week(s) and fortnights)
yields a StorageError naming the offending input — never a silent
default. -/
theorem C6_duration_window (E : Int) (s p0 p1 : String) (amount : Int) :
    (pySplitWs s = [p0, p1] →
      (pyToInt p0 = some amount →
        (pyToLower p1 = "day" ∨ pyToLower p1 = "days" →
          SQLStorage.queryWindow (.dur s) E = .range (E - amount * 86400) E)
        ∧ (pyToLower p1 = "hour" ∨ pyToLower p1 = "hours" →
          SQLStorage.queryWindow (.dur s) E = .range (E - amount * 3600) E)
        ∧ (pyToLower p1 = "minute" ∨ pyToLower p1 = "minutes" →
          SQLStorage.queryWindow (.dur s) E = .range (E - amount * 60) E)
        ∧ (pyToLower p1 ∉ (["day", "days", "hour", "hours", "minute", "minutes"] : List String) →
          SQLStorage.queryWindow (.dur s) E
            = .storageErr ("Invalid window format: Unsupported time unit: " ++ pyToLower p1)))
      ∧ (pyToInt p0 = none →
        SQLStorage.queryWindow (.dur s) E
          = .storageErr ("Invalid window format: invalid literal for int with base 10: " ++ p0)))
    ∧ (∀ parts, pySplitWs s = parts → parts.length ≠ 2 →
        SQLStorage.queryWindow (.dur s) E
          = .storageErr ("Invalid window format: Invalid window format: " ++ s
              ++ ". Expected <number> <unit>")) := by
  constructor
  · intro hsplit
    constructor
    · intro hint
      refine ⟨?_, ?_, ?_, ?_⟩
      · intro hu
        simp only [SQLStorage.queryWindow, hsplit, hint, hu, if_true, ite_true]
      · intro hu
        have hnd : ¬ (pyToLower p1 = "day" ∨ pyToLower p1 = "days") := by
          rcases hu with h | h <;> simp [h]
        simp only [SQLStorage.queryWindow, hsplit, hint, hu, hnd, if_false, if_true,
          ite_false, ite_true]
      · intro hu
        have hnd : ¬ (pyToLower p1 = "day" ∨ pyToLower p1 = "days") := by
          rcases hu with h | h <;> simp [h]
        have hnh : ¬ (pyToLower p1 = "hour" ∨ pyToLower p1 = "hours") := by
          rcases hu with h | h <;> simp [h]
        simp only [SQLStorage.queryWindow, hsplit, hint, hu, hnd, hnh, if_false, if_true,
          ite_false, ite_true]
      · intro hu
        simp only [List.mem_cons, List.mem_singleton, List.not_mem_nil, or_false] at hu
        push_neg at hu
        obtain ⟨h1, h2, h3, h4, h5, h6⟩ := hu
        simp only [SQLStorage.queryWindow, hsplit, hint, h1, h2, h3, h4, h5, h6,
          or_self, if_false, ite_false, reduceIte]
    · intro hint
      simp only [SQLStorage.queryWindow, hsplit, hint]
  · intro parts hsp hlen
    match parts, hlen with
    | [], _ => simp only [SQLStorage.queryWindow, hsp]
    | [x], _ => simp only [SQLStorage.queryWindow, hsp]
    | [x, y], h => exact absurd rfl h
    | x :: y :: z :: rest, _ => simp only [SQLStorage.queryWindow, hsp]

/-- Witness for C6: the duration `"30 days"` anchored at 500 resolves to
the inclusive range starting 30 days earlier. -/
theorem C6_duration_window_witness :
    SQLStorage.queryWindow (.dur "30 days") 500 = .range (500 - 30 * 86400) 500 :=
  (((C6_duration_window 500 "30 days" "30" "days" 30).1 (by decide)).1
    (by decide)).1 (Or.inr rfl)

end DetectK
namespace DetectK

/-! Part: Collector resource release (C8) -/

/-- C8 counterexample: when `collect` raises, `_collect_data` wraps the
failure in a `CollectionError` but never calls the constructed collector's
`close()` (there is no `finally` in the source), contradicting
release-on-every-exit-path. -/
theorem C8_counterexample :
    (MetricCheck._collect_data Fixtures.envCollectFails Fixtures.cfgSingle 0).closeCalled = false
    ∧ Fixtures.envCollectFails.collectorHasClose = true
    ∧ (MetricCheck._collect_data Fixtures.envCollectFails Fixtures.cfgSingle 0).result
        = .error (.collection "Failed to collect data: connection refused") := by
  refine ⟨rfl, rfl, rfl⟩

/-- C8 amended: `close()` is called before the collect stage returns only
on the success path — when registry lookup, construction and `collect` all
succeed and the collector has a `close` attribute; when `collect` (or an
earlier step) raises, `close()` is not called and the failure is wrapped in
a `CollectionError`. -/
theorem C8_close_called_only_on_success (env : Env) (config : MetricConfig) (t : Int) :
    (env.collectorHasClose = true →
      env.collectorGet config.collector.type = .ok () →
      env.collectorInit config.collector.params = .ok () →
      (env.collectorCollect config.collector.params t).isOk = true →
      (MetricCheck._collect_data env config t).closeCalled = true)
    ∧ ((env.collectorCollect config.collector.params t).isOk = false →
      (MetricCheck._collect_data env config t).closeCalled = false
      ∧ ∃ m, (MetricCheck._collect_data env config t).result = .error (.collection m)) := by
  constructor
  · intro hhc hg hi hc
    unfold MetricCheck._collect_data
    rw [hg, hi]
    cases hcc : env.collectorCollect config.collector.params t with
    | error m => rw [hcc] at hc; exact absurd hc (by simp [Except.isOk, Except.toBool])
    | ok dp =>
        rw [hhc]
        cases hcl : env.collectorClose with
        | error m => simp
        | ok u => simp
  · intro hc
    unfold MetricCheck._collect_data
    cases hg : env.collectorGet config.collector.type with
    | error m =>
        exact ⟨by simp only [hg], "Failed to collect data: " ++ m, by simp only [hg]; rfl⟩
    | ok u =>
        cases hi : env.collectorInit config.collector.params with
        | error m =>
            exact ⟨by simp only [hg, hi], "Failed to collect data: " ++ m,
              by simp only [hg, hi]; rfl⟩
        | ok u2 =>
            cases hcc : env.collectorCollect config.collector.params t with
            | error m =>
                exact ⟨by simp only [hg, hi, hcc], "Failed to collect data: " ++ m,
                  by simp only [hg, hi, hcc]; rfl⟩
            | ok dp => rw [hcc] at hc; exact absurd hc (by simp [Except.isOk, Except.toBool])

/-- Witness for C8: close is called in an all-success fixture and skipped
when collect fails. -/
theorem C8_close_called_only_on_success_witness :
    (MetricCheck._collect_data Fixtures.envSingle Fixtures.cfgSingle 0).closeCalled = true
    ∧ (MetricCheck._collect_data Fixtures.envCollectFails Fixtures.cfgSingle 5).closeCalled = false :=
  ⟨(C8_close_called_only_on_success Fixtures.envSingle Fixtures.cfgSingle 0).1 rfl rfl rfl rfl,
   ((C8_close_called_only_on_success Fixtures.envCollectFails Fixtures.cfgSingle 5).2 rfl).1⟩

/-! Part: Execute error discipline (C3) -/

/-- Loading failures are always `ConfigurationError`s. -/
theorem load_file_error_is_configuration (env : Env) (path : String)
    (ctx : Option Int) {e : DtkError}
    (h : ConfigLoader.load_file env path ctx = .error e) :
    e.isConfigurationError = true := by
  unfold ConfigLoader.load_file at h
  cases hr : env.readAndParse path ctx with
  | error m => simp only [hr] at h; injection h with h'; subst h'; rfl
  | ok raw =>
      simp only [hr] at h
      cases hv : validateMetricConfig raw with
      | ok cfg => simp only [hv] at h; exact Except.noConfusion h
      | error m => simp only [hv] at h; injection h with h'; subst h'; rfl

/-- C3: only a configuration-load failure propagates out of `execute`
(and it is a `ConfigurationError`); a collect-stage failure instead yields
a degraded `CheckResult` recording the failure, with a zero-valued
sentinel `DataPoint` and a non-anomalous detection. -/
theorem C3_collect_failure_degrades (env : Env) (path : String) (t : Int) :
    (∀ e, MetricCheck.execute env path t = .error e →
        e.isConfigurationError = true
        ∧ ConfigLoader.load_file env path (some t) = .error e)
    ∧ (∀ cfg e, ConfigLoader.load_file env path (some t) = .ok cfg →
        (MetricCheck._collect_data env cfg t).result = .error e →
        MetricCheck.execute env path t
          = .ok (MetricCheck.degradedResult path t [] e.message))
    ∧ (∀ m, (MetricCheck.degradedResult path t [] m).detection.is_anomaly = false
        ∧ (MetricCheck.degradedResult path t [] m).datapoint.value = some 0
        ∧ (MetricCheck.degradedResult path t [] m).errors
            = ["Unexpected error during metric check: " ++ m]) := by
  refine ⟨?_, ?_, fun m => ⟨rfl, rfl, rfl⟩⟩
  · intro e h
    unfold MetricCheck.execute at h
    cases hl : ConfigLoader.load_file env path (some t) with
    | error e' =>
        simp only [hl] at h
        injection h with h'
        subst h'
        exact ⟨load_file_error_is_configuration env path (some t) hl, rfl⟩
    | ok cfg =>
        simp only [hl] at h
        cases hc : (MetricCheck._collect_data env cfg t).result with
        | error ce => simp only [hc] at h; exact Except.noConfusion h
        | ok dp => simp only [hc] at h; exact Except.noConfusion h
  · intro cfg e hl hc
    unfold MetricCheck.execute
    simp only [hl, hc]

/-- Witness for C3: a load failure propagates as a `ConfigurationError`; a
collect failure yields the degraded result. -/
theorem C3_collect_failure_degrades_witness :
    ((DtkError.configuration "Configuration file not found: cfg.yaml").isConfigurationError = true
      ∧ ConfigLoader.load_file Fixtures.envLoadFails "cfg.yaml" (some 0)
          = .error (.configuration "Configuration file not found: cfg.yaml"))
    ∧ MetricCheck.execute Fixtures.envCollectFails "cfg.yaml" 0
        = .ok (MetricCheck.degradedResult "cfg.yaml" 0 []
            "Failed to collect data: connection refused") :=
  ⟨(C3_collect_failure_degrades Fixtures.envLoadFails "cfg.yaml" 0).1
      (.configuration "Configuration file not found: cfg.yaml") (by decide),
   (C3_collect_failure_degrades Fixtures.envCollectFails "cfg.yaml" 0).2.1
      Fixtures.cfgSingle (.collection "Failed to collect data: connection refused")
      (by decide) (by decide)⟩

end DetectK
namespace DetectK

/-! Part: Storage failure isolation (C5) and single-detector dispatch (C1) -/

/-- The alert stage never drops previously recorded errors. -/
theorem send_alert_errors_superset (env : Env) (config : MetricConfig)
    (detection : DetectionResult) (errors : List String) :
    ∀ x ∈ errors, x ∈ (MetricCheck._send_alert env config detection errors).2 := by
  intro x hx
  unfold MetricCheck._send_alert
  cases hp : env.alertConditionsParse config.alerter.conditions with
  | error m => exact List.mem_append_left _ hx
  | ok u =>
      by_cases ha : detection.is_anomaly
      · simp only [ha, Bool.not_true, if_false, ite_false, Bool.false_eq_true]
        cases hg : env.alerterGet config.alerter.type with
        | error m => exact List.mem_append_left _ hx
        | ok u2 =>
            cases hs : env.alerterSend config.alerter.params detection with
            | error m => exact List.mem_append_left _ hx
            | ok b =>
                cases b with
                | false => exact List.mem_append_left _ hx
                | true => exact hx
      · simp only [Bool.not_eq_true] at ha
        simp only [ha, Bool.not_false, if_true, ite_true]
        exact hx

/-- C5: when loading and collection succeed, storage is enabled and the
storage write raises, `execute` does not raise: the storage failure is
recorded in `errors`, detection still runs, and its genuine result is
returned in the `CheckResult`. -/
theorem C5_storage_failure_nonfatal (env : Env) (path : String) (t : Int)
    (cfg : MetricConfig) (dp : DataPoint) (d : DetectorConfig)
    (det : DetectionResult) (m : String)
    (hload : ConfigLoader.load_file env path (some t) = .ok cfg)
    (hcollect : (MetricCheck._collect_data env cfg t).result = .ok dp)
    (hen : cfg.storage.enabled = true)
    (hsg : env.storageGet (MetricCheck.storageType cfg) = .ok ())
    (hsi : env.storageInit cfg.storage.params = .ok ())
    (hsv : env.storageSave cfg.name dp = .error m)
    (hdet : cfg.detector = some d)
    (hdg : env.detectorGet d.type = .ok ())
    (hdr : env.detectorRun d true cfg.name dp.value dp.timestamp = .ok det) :
    ∃ r, MetricCheck.execute env path t = .ok r
      ∧ r.detection = det
      ∧ ("Failed to save to storage: " ++ m) ∈ r.errors := by
  have hsave : MetricCheck._save_to_storage env cfg cfg.name dp []
      = ["Failed to save to storage: " ++ m] := by
    unfold MetricCheck._save_to_storage
    simp only [hsg, hsi, hsv, List.nil_append]
  have hdetrun : MetricCheck._run_detection env cfg cfg.name dp
      ["Failed to save to storage: " ++ m]
      = (det, ["Failed to save to storage: " ++ m]) := by
    unfold MetricCheck._run_detection
    simp only [hdet, hdg, hen, if_true, ite_true, hsg, hsi, hdr]
  unfold MetricCheck.execute
  simp only [hload, hcollect, hen, if_true, ite_true, hsave, hdetrun]
  by_cases ha : det.is_anomaly
  · simp only [ha, if_true, ite_true]
    exact ⟨_, rfl, rfl,
      send_alert_errors_superset env cfg det ["Failed to save to storage: " ++ m]
        _ (List.mem_singleton_self _)⟩
  · simp only [Bool.not_eq_true] at ha
    simp only [ha, if_false, ite_false, Bool.false_eq_true]
    exact ⟨_, rfl, rfl, List.mem_singleton_self _⟩

/-- Witness for C5 at a concrete failing storage plugin. -/
theorem C5_storage_failure_nonfatal_witness :
    ∃ r, MetricCheck.execute Fixtures.envStorageSaveFails "cfg.yaml" 0 = .ok r
      ∧ r.detection = Fixtures.detOk "m" (some 5) 0
      ∧ ("Failed to save to storage: disk full") ∈ r.errors :=
  C5_storage_failure_nonfatal Fixtures.envStorageSaveFails "cfg.yaml" 0
    Fixtures.cfgSingle (Fixtures.dpAt 0) Fixtures.dThr (Fixtures.detOk "m" (some 5) 0)
    "disk full" (by decide) (by decide) rfl rfl rfl rfl rfl rfl rfl

/-- C1 (evaluation at the failing input): the configuration model accepts
a two-detector unit, but the orchestrator dereferences only the singular
`detector` field — `None` in the plural case — so the detect stage raises
`AttributeError`, which is substituted by a single non-anomalous error
result: neither configured detector runs and the `CheckResult` carries one
`DetectionResult` instead of one per configured detector. -/
theorem C1_plural_detectors_never_run :
    (validateMetricConfig Fixtures.rawTwoDetectors).isOk = true
    ∧ validateMetricConfig Fixtures.rawTwoDetectors
        = .ok { name := "m", collector := { type := "sql" },
                detector := none, detectors := [Fixtures.dThr, Fixtures.dMad],
                alerter := { type := "mattermost" },
                storage := { enabled := false } }
    ∧ MetricCheck.execute Fixtures.envTwoDetectors "cfg.yaml" 0
        = .ok { metric_name := "m",
                datapoint := Fixtures.dpAt 0,
                detection := MetricCheck.detectionErrorResult "m" (Fixtures.dpAt 0)
                    "NoneType object has no attribute type",
                alert_sent := false, alert_reason := none,
                errors := ["Failed to run detection: NoneType object has no attribute type"] } := by
  refine ⟨by decide, by decide, by decide⟩

end DetectK
namespace DetectK

/-! Part: Backtest loop schedule (C4) -/

/-- Once past the end boundary the loop yields nothing, at any fuel. -/
theorem loopAux_past_end (env : Env) (path : String) (stop step : Int)
    (fuel : Nat) (current : Int) (h : ¬ current ≤ stop) :
    BacktestRunner.loopAux env path stop step fuel current = .ok [] := by
  cases fuel with
  | zero => rfl
  | succ n => simp only [BacktestRunner.loopAux, if_neg h]

/-- With sufficient fuel the loop maps the orchestrator over the
arithmetic progression of execution times, inclusively up to the end. -/
theorem loopAux_spec (env : Env) (path : String) (stop step : Int)
    (f : Int → CheckResult)
    (hexec : ∀ t, MetricCheck.execute env path t = .ok (f t))
    (hstep : 0 < step) :
    ∀ (fuel : Nat) (current : Int), current ≤ stop →
      ((stop - current) / step).toNat < fuel →
      BacktestRunner.loopAux env path stop step fuel current
        = .ok ((List.range (((stop - current) / step).toNat + 1)).map
            (fun k : Nat => f (current + (k : Int) * step))) := by
  intro fuel
  induction fuel with
  | zero => intro c hc hf; omega
  | succ n ih =>
      intro c hc hf
      have hnn : 0 ≤ (stop - c) / step := Int.ediv_nonneg (by omega) (le_of_lt hstep)
      by_cases hnext : c + step ≤ stop
      · have hq : (stop - (c + step)) / step = (stop - c) / step - 1 := by
          rw [show stop - (c + step) = (stop - c) + (-1) * step by ring]
          rw [Int.add_mul_ediv_right _ _ (ne_of_gt hstep)]
          omega
        have hq1 : 1 ≤ (stop - c) / step := by
          rw [Int.le_ediv_iff_mul_le hstep]
          omega
        have htn : ((stop - (c + step)) / step).toNat
            = ((stop - c) / step).toNat - 1 := by
          rw [hq]; omega
        have hfn : ((stop - (c + step)) / step).toNat < n := by omega
        have hrec := ih (c + step) hnext hfn
        simp only [BacktestRunner.loopAux, if_pos hc, hexec c, hrec]
        congr 1
        rw [htn]
        have hM : ((stop - c) / step).toNat - 1 + 1 = ((stop - c) / step).toNat := by
          omega
        rw [hM]
        rw [List.range_succ_eq_map, List.map_cons, List.map_map]
        congr 1
        · simp
        · apply List.map_congr_left
          intro k _
          simp only [Function.comp_apply]
          congr 1
          push_cast
          ring
      · have hz : (stop - c) / step = 0 := by
          apply Int.ediv_eq_zero_of_lt (by omega) (by omega)
        have hrest := loopAux_past_end env path stop step n (c + step) hnext
        simp only [BacktestRunner.loopAux, if_pos hc, hexec c, hrest]
        rw [hz]
        congr 1
        simp [List.range_succ]

/-- C4: for a valid enabled backtest range the simulator invokes the
orchestrator at `detection_start`, `detection_start + step`, …, while the
current time has not passed `detection_end` (inclusive boundary), appends
each `CheckResult` in step order, and performs exactly
`⌊(detection_end − detection_start) / step⌋ + 1` invocations. -/
theorem C4_backtest_loop (env : Env) (path : String)
    (detection_start detection_end step : Int) (f : Int → CheckResult)
    (hstep : 0 < step) (hse : detection_start ≤ detection_end)
    (hexec : ∀ t, MetricCheck.execute env path t = .ok (f t)) :
    BacktestRunner._run_backtest_loop env path detection_start detection_end step
      = .ok ((List.range (((detection_end - detection_start) / step).toNat + 1)).map
          (fun k : Nat => f (detection_start + (k : Int) * step)))
    ∧ (∀ rs, BacktestRunner._run_backtest_loop env path detection_start detection_end step
          = .ok rs →
        rs.length = ((detection_end - detection_start) / step).toNat + 1) := by
  have h1 := loopAux_spec env path detection_end step f hexec hstep
    (((detection_end - detection_start) / step).toNat + 1) detection_start hse
    (Nat.lt_succ_self _)
  refine ⟨h1, fun rs hrs => ?_⟩
  rw [BacktestRunner._run_backtest_loop] at hrs
  rw [h1] at hrs
  injection hrs with h2
  subst h2
  simp

/-- Witness for C4: a 100-minute range at 10-minute steps (in seconds:
0 to 6000 by 600) performs exactly 11 invocations, at 0, 600, …, 6000. -/
theorem C4_backtest_loop_witness :
    BacktestRunner._run_backtest_loop Fixtures.envSingle "p" 0 6000 600
      = .ok ((List.range 11).map
          (fun k : Nat => Fixtures.execResultOk (0 + (k : Int) * 600)))
    ∧ (∀ rs, BacktestRunner._run_backtest_loop Fixtures.envSingle "p" 0 6000 600 = .ok rs →
        rs.length = 11) := by
  have h := C4_backtest_loop Fixtures.envSingle "p" 0 6000 600 Fixtures.execResultOk
    (by decide) (by decide) (fun t => rfl)
  have hn : (((6000 : Int) - 0) / 600).toNat + 1 = 11 := by decide
  constructor
  · rw [h.1, hn]
  · intro rs hrs
    rw [h.2 rs hrs, hn]

end DetectK
namespace DetectK

/-! Part: Backtest mandatory fields (C7) -/

/-- A successful model validation preserves the backtest spec and implies
the load-time backtest presence checks passed. -/
theorem validateMetricConfig_ok (raw : RawMetricConfig) (cfg : MetricConfig)
    (h : validateMetricConfig raw = .ok cfg) :
    cfg.backtest = raw.backtest
      ∧ model_post_init_backtest raw.backtest = .ok () := by
  unfold validateMetricConfig at h
  cases hv : validate_detector_config (raw.detector.map ensure_id_exists)
      (raw.detectors.map (fun l => l.map ensure_id_exists)) with
  | error m => simp only [hv] at h; exact Except.noConfusion h
  | ok p =>
      obtain ⟨d?, ds⟩ := p
      simp only [hv] at h
      cases hm : model_post_init_backtest raw.backtest with
      | error m => simp only [hm] at h; exact Except.noConfusion h
      | ok u =>
          simp only [hm] at h
          injection h with h'
          subst h'
          exact ⟨rfl, rfl⟩

/-- When enabled and one of the three load-checked fields is falsy, the
load-time backtest check fails. -/
theorem model_post_init_fails (b : BacktestConfig) (he : b.enabled = true)
    (hf : pyFalsy b.data_load_start = true ∨ pyFalsy b.detection_start = true
        ∨ pyFalsy b.step_interval = true) :
    ∃ m, model_post_init_backtest b = .error m := by
  unfold model_post_init_backtest
  simp only [he, if_true, ite_true]
  by_cases h1 : pyFalsy b.data_load_start = true
  · exact ⟨"backtest.data_load_start is required when backtesting is enabled",
      by simp only [h1, if_true, ite_true]⟩
  · rw [if_neg h1]
    by_cases h2 : pyFalsy b.detection_start = true
    · exact ⟨"backtest.detection_start is required when backtesting is enabled",
        by simp only [h2, if_true, ite_true]⟩
    · rw [if_neg h2]
      have h3 : pyFalsy b.step_interval = true := by
        rcases hf with h | h | h
        · exact absurd h h1
        · exact absurd h h2
        · exact h
      exact ⟨"backtest.step_interval is required when backtesting is enabled",
        by simp only [h3, if_true, ite_true]⟩

/-- A passing load-time backtest check pins the three checked fields. -/
theorem model_post_init_ok (b : BacktestConfig)
    (h : model_post_init_backtest b = .ok ()) (he : b.enabled = true) :
    pyFalsy b.data_load_start = false ∧ pyFalsy b.detection_start = false
      ∧ pyFalsy b.step_interval = false := by
  unfold model_post_init_backtest at h
  simp only [he, if_true, ite_true] at h
  by_cases h1 : pyFalsy b.data_load_start = true
  · simp only [h1, if_true, ite_true] at h
    exact Except.noConfusion h
  · rw [if_neg h1] at h
    by_cases h2 : pyFalsy b.detection_start = true
    · simp only [h2, if_true, ite_true] at h
      exact Except.noConfusion h
    · rw [if_neg h2] at h
      by_cases h3 : pyFalsy b.step_interval = true
      · simp only [h3, if_true, ite_true] at h
        exact Except.noConfusion h
      · exact ⟨by simpa using h1, by simpa using h2, by simpa using h3⟩

/-- C7 counterexample: an enabled backtest missing only `detection_end`
passes load-time configuration validation (`model_post_init` checks the
other three fields but not this one). -/
theorem C7_counterexample :
    Fixtures.rawBacktestNoEnd.backtest.enabled = true
    ∧ pyFalsy Fixtures.rawBacktestNoEnd.backtest.detection_end = true
    ∧ (validateMetricConfig Fixtures.rawBacktestNoEnd).isOk = true := by
  refine ⟨rfl, rfl, by decide⟩

/-- C7 amended: load-time configuration validation rejects, for an enabled
backtest, a missing `data_load_start`, `detection_start` or
`step_interval`; a missing `detection_end` passes load-time validation and
is instead rejected — like the other three — by the backtest runner's
pre-run validation, so a `BacktestRunner.run` on a config missing any of
the four fails with a ConfigurationError before any pipeline stage runs. -/
theorem C7_backtest_mandatory_fields (env : Env) (path : String)
    (raw : RawMetricConfig) :
    (raw.backtest.enabled = true →
      (pyFalsy raw.backtest.data_load_start = true
        ∨ pyFalsy raw.backtest.detection_start = true
        ∨ pyFalsy raw.backtest.step_interval = true) →
      ∃ m, validateMetricConfig raw = .error m)
    ∧ (env.readAndParse path none = .ok raw → raw.backtest.enabled = true →
      (pyFalsy raw.backtest.data_load_start = true
        ∨ pyFalsy raw.backtest.detection_start = true
        ∨ pyFalsy raw.backtest.detection_end = true
        ∨ pyFalsy raw.backtest.step_interval = true) →
      ∃ m, BacktestRunner.run env path = .error (.configuration m)) := by
  constructor
  · intro he hf
    unfold validateMetricConfig
    cases hv : validate_detector_config (raw.detector.map ensure_id_exists)
        (raw.detectors.map (fun l => l.map ensure_id_exists)) with
    | error m => exact ⟨m, by simp only [hv]⟩
    | ok p =>
        obtain ⟨d?, ds⟩ := p
        obtain ⟨m, hm⟩ := model_post_init_fails raw.backtest he hf
        exact ⟨m, by simp only [hv, hm]⟩
  · intro hr he hf
    cases hv : validateMetricConfig raw with
    | error m =>
        refine ⟨"Configuration validation failed: " ++ m, ?_⟩
        unfold BacktestRunner.run ConfigLoader.load_file
        simp only [hr, hv]
    | ok cfg =>
        obtain ⟨hb, hm⟩ := validateMetricConfig_ok raw cfg hv
        obtain ⟨f1, f2, f3⟩ := model_post_init_ok raw.backtest hm he
        have hde : pyFalsy raw.backtest.detection_end = true := by
          rcases hf with h | h | h | h
          · rw [f1] at h; exact absurd h (by simp)
          · rw [f2] at h; exact absurd h (by simp)
          · exact h
          · rw [f3] at h; exact absurd h (by simp)
        have hen : cfg.backtest.enabled = true := by rw [hb]; exact he
        have hval : BacktestRunner._validate_backtest_config env cfg
            = .error (.configuration
                "backtest.detection_end is required when backtesting is enabled") := by
          unfold BacktestRunner._validate_backtest_config
          rw [hb]
          simp [f1, f2, f3, hde]
        refine ⟨"backtest.detection_end is required when backtesting is enabled", ?_⟩
        unfold BacktestRunner.run ConfigLoader.load_file
        simp only [hr, hv, hen, Bool.not_true, Bool.false_eq_true, if_false, ite_false, hval]

/-- Witness for C7: the concrete enabled backtest config missing
`detection_end` makes `run` fail with a ConfigurationError before any
invocation. -/
theorem C7_backtest_mandatory_fields_witness :
    ∃ m, BacktestRunner.run Fixtures.envBacktestNoEnd "cfg.yaml"
        = .error (.configuration m) :=
  (C7_backtest_mandatory_fields Fixtures.envBacktestNoEnd "cfg.yaml"
      Fixtures.rawBacktestNoEnd).2 rfl rfl (Or.inr (Or.inr (Or.inl rfl)))

end DetectK
namespace DetectK

/-! Part: Backtest aggregate counts (C10) -/

/-- Any `CheckResult` produced by `execute` has `alert_sent` only when its
detection was flagged anomalous (the alert stage is entered only then, and
the degraded result never alerts). -/
theorem execute_alert_implies_anomaly (env : Env) (path : String) (t : Int)
    (r : CheckResult) (h : MetricCheck.execute env path t = .ok r) :
    r.alert_sent = true → r.detection.is_anomaly = true := by
  intro ha
  unfold MetricCheck.execute at h
  cases hl : ConfigLoader.load_file env path (some t) with
  | error e => simp only [hl] at h; exact Except.noConfusion h
  | ok cfg =>
      simp only [hl] at h
      cases hc : (MetricCheck._collect_data env cfg t).result with
      | error e =>
          simp only [hc] at h
          injection h with h'
          subst h'
          exact absurd ha (by simp [MetricCheck.degradedResult])
      | ok dp =>
          simp only [hc] at h
          injection h with h'
          subst h'
          by_cases han : (MetricCheck._run_detection env cfg cfg.name dp
              (if cfg.storage.enabled = true
               then MetricCheck._save_to_storage env cfg cfg.name dp []
               else [])).1.is_anomaly = true
          · exact han
          · rw [if_neg han] at ha
            exact absurd ha (by simp)

/-- Every result collected by the backtest loop comes from a successful
`execute` invocation. -/
theorem loopAux_mem (env : Env) (path : String) (stop step : Int) :
    ∀ (fuel : Nat) (current : Int) (rs : List CheckResult),
      BacktestRunner.loopAux env path stop step fuel current = .ok rs →
      ∀ r ∈ rs, ∃ t, MetricCheck.execute env path t = .ok r := by
  intro fuel
  induction fuel with
  | zero =>
      intro c rs h r hr
      injection h with h'
      subst h'
      exact absurd hr (List.not_mem_nil r)
  | succ n ih =>
      intro c rs h r hr
      unfold BacktestRunner.loopAux at h
      by_cases hc : c ≤ stop
      · rw [if_pos hc] at h
        cases he : MetricCheck.execute env path c with
        | error e => simp only [he] at h; exact Except.noConfusion h
        | ok r0 =>
            simp only [he] at h
            cases hrec : BacktestRunner.loopAux env path stop step n (c + step) with
            | error e => simp only [hrec] at h; exact Except.noConfusion h
            | ok rest =>
                simp only [hrec] at h
                injection h with h'
                subst h'
                rcases List.mem_cons.mp hr with rfl | hmem
                · exact ⟨c, he⟩
                · exact ih (c + step) rest hrec r hmem
      · rw [if_neg hc] at h
        injection h with h'
        subst h'
        exact absurd hr (List.not_mem_nil r)

/-- Results of `_run_backtest_loop` all come from `execute`. -/
theorem run_backtest_loop_mem (env : Env) (path : String)
    (detection_start detection_end step : Int) (rs : List CheckResult)
    (h : BacktestRunner._run_backtest_loop env path detection_start detection_end step
        = .ok rs) :
    ∀ r ∈ rs, ∃ t, MetricCheck.execute env path t = .ok r :=
  loopAux_mem env path detection_end step _ detection_start rs h

/-- C10: the aggregate counts of a completed backtest run are nested:
`0 ≤ alerts_sent ≤ anomalies_detected ≤ total_checks`, because a check
contributes an alert only when its detection is anomalous and each check
contributes at most one anomaly. -/
theorem C10_backtest_counts (env : Env) (path : String)
    (s : BacktestRunner.BacktestResult)
    (h : BacktestRunner.run env path = .ok s) :
    s.alerts_sent ≤ s.anomalies_detected ∧ s.anomalies_detected ≤ s.total_checks := by
  unfold BacktestRunner.run at h
  cases hl : ConfigLoader.load_file env path none with
  | error e => simp only [hl] at h; exact Except.noConfusion h
  | ok cfg =>
      simp only [hl] at h
      by_cases hen : cfg.backtest.enabled = true
      · simp only [hen, Bool.not_true, Bool.false_eq_true, if_false, ite_false] at h
        cases hv : BacktestRunner._validate_backtest_config env cfg with
        | error e => simp only [hv] at h; exact Except.noConfusion h
        | ok u =>
            simp only [hv] at h
            cases h1 : BacktestRunner._parse_datetime env cfg.backtest.data_load_start with
            | error e => simp only [h1] at h; exact Except.noConfusion h
            | ok t1 =>
                simp only [h1] at h
                cases h2 : BacktestRunner._parse_datetime env cfg.backtest.detection_start with
                | error e => simp only [h2] at h; exact Except.noConfusion h
                | ok t2 =>
                    simp only [h2] at h
                    cases h3 : BacktestRunner._parse_datetime env cfg.backtest.detection_end with
                    | error e => simp only [h3] at h; exact Except.noConfusion h
                    | ok t3 =>
                        simp only [h3] at h
                        cases h4 : BacktestRunner._parse_interval cfg.backtest.step_interval with
                        | error e => simp only [h4] at h; exact Except.noConfusion h
                        | ok t4 =>
                            simp only [h4] at h
                            cases hloop : BacktestRunner._run_backtest_loop env path t2 t3 t4 with
                            | error e => simp only [hloop] at h; exact Except.noConfusion h
                            | ok results =>
                                simp only [hloop] at h
                                injection h with h'
                                subst h'
                                constructor
                                · apply List.countP_mono_left
                                  intro r hmem hra
                                  obtain ⟨t, ht⟩ := run_backtest_loop_mem env path t2 t3 t4
                                    results hloop r hmem
                                  exact execute_alert_implies_anomaly env path t r ht hra
                                · exact List.countP_le_length _
      · have hfen : cfg.backtest.enabled = false := by simpa using hen
        simp only [hfen, Bool.not_false, if_true, ite_true] at h
        exact Except.noConfusion h

/-- Witness for C10: the two-step fixture backtest run satisfies the
nested-count inequalities. -/
theorem C10_backtest_counts_witness :
    ∃ s, BacktestRunner.run Fixtures.envBacktest "cfg.yaml" = .ok s
      ∧ s.alerts_sent ≤ s.anomalies_detected
      ∧ s.anomalies_detected ≤ s.total_checks := by
  have hrun : BacktestRunner.run Fixtures.envBacktest "cfg.yaml"
      = .ok Fixtures.resBacktest := by decide
  exact ⟨Fixtures.resBacktest, hrun,
    C10_backtest_counts Fixtures.envBacktest "cfg.yaml" Fixtures.resBacktest hrun⟩

end DetectK
